import Mathlib

/-!
Verification development for the splunk-mcp-rest-bridge gateway.

The Python sources are embedded shallowly: pure data flow becomes Lean
functions, raised exceptions become `Except` errors, and the upstream HTTP
exchange is represented by the response the wire would deliver (status code,
raw text, and the outcome of parsing the body as JSON).
-/

namespace Bridge

/-- JSON values as produced by Python json parsing: objects are association
lists with the keys in document order (keys of parsed documents are unique). -/
inductive Json where
  | null
  | bool (b : Bool)
  | num (n : Int)
  | str (s : String)
  | arr (elems : List Json)
  | obj (fields : List (String × Json))

/-- Python dict lookup (`d.get(k)` / `k in d`) on a JSON object; the modelled
code paths only apply it to object-shaped envelopes, so non-objects yield
no binding. -/
def Json.get? : Json → String → Option Json
  | .obj fields, k => fields.lookup k
  | _, _ => none

/-- Python key-membership test `k in result` for an object-shaped value. -/
def Json.hasKey (j : Json) (k : String) : Bool :=
  (j.get? k).isSome

/-- An apostrophe, as Python repr uses around strings. -/
def squote : String := String.singleton (Char.ofNat 39)

mutual
/-- Python repr of a parsed JSON value (string escaping inside literals is not
modelled; no claim depends on it). -/
def Json.render : Json → String
  | .null => "None"
  | .bool true => "True"
  | .bool false => "False"
  | .num n => toString n
  | .str s => squote ++ s ++ squote
  | .arr elems => "[" ++ Json.renderList elems ++ "]"
  | .obj fields => "\x7b" ++ Json.renderFields fields ++ "\x7d"

/-- Comma-separated repr of the elements of a JSON array. -/
def Json.renderList : List Json → String
  | [] => ""
  | [x] => Json.render x
  | x :: xs => Json.render x ++ ", " ++ Json.renderList xs

/-- Comma-separated repr of the fields of a JSON object. -/
def Json.renderFields : List (String × Json) → String
  | [] => ""
  | [(k, v)] => squote ++ k ++ squote ++ ": " ++ Json.render v
  | (k, v) :: xs => squote ++ k ++ squote ++ ": " ++ Json.render v ++ ", " ++ Json.renderFields xs
end

/-- Python str() of a parsed JSON value, as interpolated by f-strings: a bare
string for str values, repr for containers and scalars. -/
def Json.pyStr : Json → String
  | .str s => s
  | j => j.render

/-- Application settings (config.py, class Settings), with Python Optional
modelled as Option. -/
structure Settings where
  bridge_host : String
  bridge_port : Int
  splunk_mcp_server_url : String
  splunk_mcp_auth_token : String
  splunk_mcp_server_timeout : Int
  splunk_mcp_server_verify_ssl : Bool
  bridge_api_key : Option String
  log_level : String
  bridge_log_payloads : Bool
  cors_origins : String

/-- A fastapi HTTPException as raised by the gateway: status code and detail. -/
structure HTTPException where
  status_code : Nat
  detail : String
deriving DecidableEq

/-- Python truthiness test `not x` for an optional string: true when the value
is None or the empty string. -/
def optStrFalsy : Option String → Bool
  | none => true
  | some s => s.isEmpty

/-- The auth gate (auth_middleware.py, get_api_key): admits every request when
no bridge API key is configured, otherwise admits exactly the requests whose
X-API-Key header equals the configured secret, and rejects with a 403 whose
detail is the fixed generic message. The header is None when absent
(APIKeyHeader with auto_error disabled). -/
def get_api_key (bridge_api_key : Option String) (api_key_header : Option String) :
    Except HTTPException (Option String) :=
  if optStrFalsy bridge_api_key then .ok api_key_header
  else if api_key_header = bridge_api_key then .ok api_key_header
  else .error ⟨403, "Could not validate credentials"⟩

/-- An upstream HTTP response as observed by the client after the POST:
status code, raw body text, and the outcome of `response.json()` (none when
the body is not valid JSON). -/
structure UpstreamResponse where
  status_code : Nat
  text : String
  parsed : Option Json

/-- The exceptions `_send_request` (mcp_client.py) can raise after the POST
returned: the json decode error propagated by `response.json()` (it carries
the document being parsed), the httpx status error raised by
`raise_for_status` (it carries the response, hence status and body), and the
generic exception raised on a JSON-RPC error member (it carries that error
object). -/
inductive MCPFailure where
  | jsonDecodeError (doc : String)
  | httpStatusError (status_code : Nat) (text : String)
  | mcpError (err : Json)

/-- Python str() of each failure as interpolated into handler messages.
The decode-error message is parse-position text that does not include the
response payload; the httpx message names the status and URL but not the
body. Both are modelled up to their fixed shape. -/
def failureMessage : MCPFailure → String
  | .jsonDecodeError _ => "Expecting value: line 1 column 1 (char 0)"
  | .httpStatusError code _ => "Error response " ++ toString code ++ " for url /"
  | .mcpError err => "MCP error: " ++ err.pyStr

/-- Lines 83 to 96 of mcp_client.py: obtaining `result` from the response.
With payload auditing enabled, a body that fails to parse is replaced by a
synthesized error object carrying the raw text; with auditing disabled,
`response.json()` is called bare and its decode error propagates. -/
def parseResponseBody (bridge_log_payloads : Bool) (response : UpstreamResponse) :
    Except MCPFailure Json :=
  if bridge_log_payloads then
    match response.parsed with
    | some result => .ok result
    | none => .ok (.obj [("error", .str "Non-JSON response from Splunk"),
                         ("raw", .str response.text)])
  else
    match response.parsed with
    | some result => .ok result
    | none => .error (.jsonDecodeError response.text)

/-- httpx `response.raise_for_status()`: raises on client and server error
statuses (4xx/5xx), carrying the response. -/
def raiseForStatus (response : UpstreamResponse) : Except MCPFailure Unit :=
  if 400 ≤ response.status_code then
    .error (.httpStatusError response.status_code response.text)
  else .ok ()

/-- The response-handling tail of `_send_request` (mcp_client.py lines 83 to
103): obtain `result` from the body, then `raise_for_status`, then raise on an
`error` member, else return the `result` member defaulting to an empty
object. -/
def sendRequestCore (bridge_log_payloads : Bool) (response : UpstreamResponse) :
    Except MCPFailure Json :=
  match parseResponseBody bridge_log_payloads response with
  | .error e => .error e
  | .ok result =>
    match raiseForStatus response with
    | .error e => .error e
    | .ok _ =>
      match result.get? "error" with
      | some err => .error (.mcpError err)
      | none => .ok ((result.get? "result").getD (.obj []))

/-- The httpx.AsyncClient connection context built by `connect`
(mcp_client.py lines 39 to 44). -/
structure HttpClientCtx where
  base_url : String
  timeout : Int
  headers : List (String × String)
  verify : Bool

/-- The state of the MCPClient object: configuration captured at
construction, and the lazily created connection context. -/
structure MCPClient where
  server_url : String
  auth_token : String
  timeout : Int
  http_client : Option HttpClientCtx

/-- MCPClient construction (mcp_client.py __init__): capture the settings,
with no connection context yet. -/
def MCPClient.init (settings : Settings) : MCPClient :=
  { server_url := settings.splunk_mcp_server_url
    auth_token := settings.splunk_mcp_auth_token
    timeout := settings.splunk_mcp_server_timeout
    http_client := none }

/-- MCPClient.connect: build the bearer header when an auth token is set
(Python truthiness: nonempty string) and create the httpx client from the
captured configuration and the TLS-verification setting. No network round
trip is performed. -/
def MCPClient.connect (self : MCPClient) (settings : Settings) : MCPClient :=
  let headers := if self.auth_token.isEmpty then []
                 else [("Authorization", "Bearer " ++ self.auth_token)]
  let ctx : HttpClientCtx :=
    { base_url := self.server_url
      timeout := self.timeout
      headers := headers
      verify := settings.splunk_mcp_server_verify_ssl }
  { self with http_client := some ctx }

/-- MCPClient.disconnect: close and drop the connection context. -/
def MCPClient.disconnect (self : MCPClient) : MCPClient :=
  { self with http_client := none }

/-- The JSON-RPC envelope built by `_send_request` (mcp_client.py lines 67 to
72). -/
def jsonrpcPayload (method : String) (params : Json) (request_id : Int) : Json :=
  .obj [("jsonrpc", .str "2.0"), ("id", .num request_id),
        ("method", .str method), ("params", params)]

/-- `_send_request` (mcp_client.py): reconnect when no connection context
exists, build the envelope, POST it, and handle the response. Returns the
possibly re-established client state, the envelope POSTed to the upstream,
and the outcome. -/
def MCPClient.send_request (settings : Settings) (self : MCPClient) (method : String)
    (params : Json) (request_id : Int) (response : UpstreamResponse) :
    MCPClient × Json × Except MCPFailure Json :=
  let self := if self.http_client.isNone then self.connect settings else self
  (self, jsonrpcPayload method params request_id,
   sendRequestCore settings.bridge_log_payloads response)

/-- MCPClient.list_tools: `_send_request` with method tools/list and id 1,
unwrapping the `tools` member with an empty-list default; its failure is
logged and re-raised unchanged. -/
def MCPClient.list_tools (settings : Settings) (self : MCPClient)
    (response : UpstreamResponse) : MCPClient × Json × Except MCPFailure Json :=
  let (self, payload, outcome) := self.send_request settings "tools/list" (.obj []) 1 response
  (self, payload, outcome.map (fun result => (result.get? "tools").getD (.arr [])))

/-- MCPClient.call_tool: `_send_request` with method tools/call, params
holding the tool name and arguments, and id 2; its failure is logged and
re-raised unchanged. -/
def MCPClient.call_tool (settings : Settings) (self : MCPClient) (tool_name : String)
    (arguments : Json) (response : UpstreamResponse) :
    MCPClient × Json × Except MCPFailure Json :=
  self.send_request settings "tools/call"
    (.obj [("name", .str tool_name), ("arguments", arguments)]) 2 response

/-- MCPClient.list_resources: `_send_request` with method resources/list and
id 3, unwrapping the `resources` member with an empty-list default. -/
def MCPClient.list_resources (settings : Settings) (self : MCPClient)
    (response : UpstreamResponse) : MCPClient × Json × Except MCPFailure Json :=
  let (self, payload, outcome) := self.send_request settings "resources/list" (.obj []) 3 response
  (self, payload, outcome.map (fun result => (result.get? "resources").getD (.arr [])))

/-- MCPClient.read_resource: `_send_request` with method resources/read,
params holding the uri, and id 4, returning the raw result. -/
def MCPClient.read_resource (settings : Settings) (self : MCPClient) (uri : String)
    (response : UpstreamResponse) : MCPClient × Json × Except MCPFailure Json :=
  self.send_request settings "resources/read" (.obj [("uri", .str uri)]) 4 response

/-- The REST response model of tools.py ToolExecutionResponse; the fields hold
the JSON values shaped by the handler (pydantic type validation of those
values is framework-side). -/
structure ToolExecutionResponse where
  content : Json
  isError : Json

/-- The REST response model of resources.py ResourceReadResponse. -/
structure ResourceReadResponse where
  contents : Json

/-- Pydantic parsing of the posted body into ToolExecutionRequest (tools.py):
the arguments member, defaulting to an empty mapping. -/
def toolExecutionRequestArguments (body : Json) : Json :=
  (body.get? "arguments").getD (.obj [])

namespace Routers

/-- The execute_tool handler (tools.py lines 64 to 93): call the tool through
the client, shape content and isError with their defaults on success, and map
any failure to a 502 carrying the stringified exception. -/
def execute_tool (settings : Settings) (client : MCPClient) (tool_name : String)
    (body : Json) (response : UpstreamResponse) :
    MCPClient × Json × Except HTTPException ToolExecutionResponse :=
  let (client, payload, outcome) :=
    client.call_tool settings tool_name (toolExecutionRequestArguments body) response
  match outcome with
  | .ok result =>
      (client, payload, .ok
        { content := (result.get? "content").getD (.arr [])
          isError := (result.get? "isError").getD (.bool false) })
  | .error e =>
      (client, payload, .error
        ⟨502, "Failed to execute tool on MCP server: " ++ failureMessage e⟩)

/-- The read_resource handler (resources.py lines 64 to 88): read through the
client, shape contents with an empty-list default on success, and map any
failure to a 502 carrying the stringified exception. -/
def read_resource (settings : Settings) (client : MCPClient) (uri : String)
    (response : UpstreamResponse) :
    MCPClient × Json × Except HTTPException ResourceReadResponse :=
  let (client, payload, outcome) := client.read_resource settings uri response
  match outcome with
  | .ok result =>
      (client, payload, .ok { contents := (result.get? "contents").getD (.arr []) })
  | .error e =>
      (client, payload, .error
        ⟨502, "Failed to read resource from MCP server: " ++ failureMessage e⟩)

end Routers

/-- The payload returned by the health endpoint (main.py health_check). -/
structure HealthPayload where
  status : String
  mcp_connection : String
  error : Option String

/-- The health endpoint (main.py lines 103 to 119): perform a live tools/list
call; on success report healthy, on any exception report degraded with the
stringified error. The function is total: no failure propagates. -/
def health_check (settings : Settings) (client : MCPClient)
    (response : UpstreamResponse) : HealthPayload :=
  match (client.list_tools settings response).2.2 with
  | .ok _ => { status := "healthy", mcp_connection := "connected", error := none }
  | .error e =>
      { status := "degraded", mcp_connection := "disconnected"
        error := some (failureMessage e) }

/-- An inbound HTTP request as the middleware sees it: method, path, headers,
and the receive stream delivering the body bytes in chunks. -/
structure Request where
  method : String
  path : String
  headers : List (String × String)
  stream : List (List UInt8)

/-- The starlette `await request.body()`: drain the receive stream and
concatenate its chunks. -/
def Request.body (request : Request) : List UInt8 :=
  request.stream.flatten

/-- An HTTP response as it flows back through the middleware: status, headers,
and the body iterator as a list of byte chunks. -/
structure Response where
  status_code : Nat
  headers : List (String × String)
  body_chunks : List (List UInt8)

/-- Lines 31 to 37 of logging_middleware.py: after `await request.body()` the
middleware installs a receive callable that delivers the buffered bytes as a
single chunk, so downstream consumers observe an intact body stream. -/
def replayRequest (request : Request) : Request :=
  { request with stream := [request.body] }

/-- RequestLoggingMiddleware.dispatch (logging_middleware.py lines 20 to 74):
with auditing disabled return `call_next(request)` untouched; with auditing
enabled buffer and replay the request body, run the downstream handler, drain
its body iterator, and reinstall the drained bytes as a single-chunk iterator
(iterate_in_chunks), leaving status and headers as produced. The log lines
(lines 39 to 49 and 63 to 72) only format text for the log sink and touch no
data that flows onward, so they are omitted. -/
def dispatch (bridge_log_payloads : Bool) (call_next : Request → Response)
    (request : Request) : Response :=
  if !bridge_log_payloads then call_next request
  else
    let request := replayRequest request
    let response := call_next request
    let response_body := response.body_chunks.flatten
    { response with body_chunks := [response_body] }

/-- Observable effects relevant to the ordering claims: the audit interceptor
reading (buffering) the inbound request body, and an endpoint handler calling
the upstream client. -/
inductive Event where
  | bufferRequestBody
  | upstreamCall
deriving DecidableEq

/-- Header lookup by exact name (case folding of real HTTP headers is not
modelled; the claims use the exact name X-API-Key). -/
def headerLookup (headers : List (String × String)) (k : String) : Option String :=
  headers.lookup k

/-- Modelled from the spec: error_handler.py is referenced by
src/middleware/(init) but its source is not under src; per the error-handling
design an HTTPException is re-shaped into a response with the same status and
a generic detail body, changing nothing else and calling no upstream. -/
def exceptionResponse (e : HTTPException) : Response :=
  { status_code := e.status_code, headers := [], body_chunks := [] }

/-- The application below the middleware stack (main.py include_router with
dependencies on get_api_key): fastapi evaluates the auth dependency before
the endpoint handler of the matched route, so a rejection becomes the
exception response and the handler never runs. The endpoint is abstract,
returning its response together with the upstream-call events it performs. -/
def routedApp (settings : Settings) (endpoint : Request → Response × List Event)
    (request : Request) : Response × List Event :=
  match get_api_key settings.bridge_api_key (headerLookup request.headers "X-API-Key") with
  | .ok _ => endpoint request
  | .error e => (exceptionResponse e, [])

/-- The pipeline of main.py with the effect trace made explicit: the
RequestLoggingMiddleware is registered with add_middleware and therefore runs
outside routing, so with auditing enabled it buffers the request body before
the routed app, and with it the auth dependency, is reached. This mirrors
`dispatch` above with the routed app inside and the events recorded in
order. -/
def appPipeline (settings : Settings) (endpoint : Request → Response × List Event)
    (request : Request) : Response × List Event :=
  if !settings.bridge_log_payloads then routedApp settings endpoint request
  else
    let request := replayRequest request
    let (response, events) := routedApp settings endpoint request
    let response_body := response.body_chunks.flatten
    ({ response with body_chunks := [response_body] }, .bufferRequestBody :: events)

/-- Route matching for the tool-execution route: tools.py mounts its router at
"/api/tools" and declares the POST route at the tool-name path parameter, so
the served path is "/api/tools/" followed by one nonempty segment containing
no further slash. Returns the captured tool name. -/
def matchToolExecutionRoute (path : String) : Option String :=
  let mount := "/api/tools/".toList
  if mount.isPrefixOf path.toList then
    let rest := path.toList.drop mount.length
    if !rest.isEmpty && rest.all (fun c => c != Char.ofNat 47) then
      some (String.mk rest)
    else none
  else none

end Bridge

namespace Bridge

/-- C1: the auth gate admits a request if and only if no API key is configured
or the supplied header equals the configured secret, and every rejection is
exactly a 403 with the generic message "Could not validate credentials". -/
theorem auth_gate_admits_iff_open_or_match (ck h : Option String) :
    get_api_key ck h =
      (if optStrFalsy ck = true ∨ h = ck then .ok h
       else .error ⟨403, "Could not validate credentials"⟩) := by
  unfold get_api_key
  by_cases hc : optStrFalsy ck = true <;> by_cases hh : h = ck <;> simp [hc, hh]

/-- C2 counterexample: an HTTP 400 response whose parsed body contains an
error member makes `_send_request` raise the transport status failure, not a
protocol failure carrying that error object, because `raise_for_status` runs
before the error-member check. -/
theorem error_member_with_failure_status_gives_transport :
    sendRequestCore false
      ⟨400, "body",
       some (.obj [("error", .obj [("code", .num (-32601)),
                                   ("message", .str "method not found")])])⟩
      = .error (.httpStatusError 400 "body") := by
  rfl

/-- C2 amended: a response whose parsed body contains an error member never
yields success: on a failure status (4xx/5xx) `_send_request` raises the
transport failure carrying status and body, and otherwise it raises the
protocol failure carrying that error object; in particular HTTP 200 with an
error body reports a failure, never a success. -/
theorem error_member_never_succeeds (logP : Bool) (resp : UpstreamResponse)
    (j err : Json) (hp : resp.parsed = some j) (he : j.get? "error" = some err) :
    sendRequestCore logP resp =
      .error (if 400 ≤ resp.status_code then
                .httpStatusError resp.status_code resp.text
              else .mcpError err) := by
  cases logP <;>
    simp only [sendRequestCore, parseResponseBody, raiseForStatus, hp] <;>
    by_cases hs : 400 ≤ resp.status_code <;>
    simp [hs, he]

/-- Witness for the C2 theorem at the HTTP 200 method-not-found response. -/
theorem error_member_never_succeeds_witness :
    sendRequestCore true
      ⟨200, "body",
       some (.obj [("error", .obj [("code", .num (-32601)),
                                   ("message", .str "method not found")])])⟩
      = .error (if 400 ≤ 200 then .httpStatusError 200 "body"
                else .mcpError (.obj [("code", .num (-32601)),
                                      ("message", .str "method not found")])) :=
  error_member_never_succeeds true
    ⟨200, "body",
     some (.obj [("error", .obj [("code", .num (-32601)),
                                 ("message", .str "method not found")])])⟩
    (.obj [("error", .obj [("code", .num (-32601)),
                           ("message", .str "method not found")])])
    (.obj [("code", .num (-32601)), ("message", .str "method not found")])
    rfl rfl

/-- C3 counterexample: with payload auditing disabled, a non-JSON body makes
`_send_request` propagate the bare json decode failure; no error result
carrying the raw response text is synthesized. -/
theorem decode_failure_propagates_when_auditing_disabled :
    parseResponseBody false ⟨200, "oops", none⟩ = .error (.jsonDecodeError "oops") ∧
    sendRequestCore false ⟨200, "oops", none⟩ = .error (.jsonDecodeError "oops") :=
  ⟨rfl, rfl⟩

/-- C3 amended: only when payload auditing is enabled does `_send_request`
synthesize, for a body that is not valid JSON, the error result carrying the
raw response text; with auditing disabled the json decode failure propagates
and no such result is synthesized. -/
theorem non_json_body_synthesis (logP : Bool) (resp : UpstreamResponse)
    (hp : resp.parsed = none) :
    parseResponseBody logP resp =
      (if logP then
         .ok (.obj [("error", .str "Non-JSON response from Splunk"),
                    ("raw", .str resp.text)])
       else .error (.jsonDecodeError resp.text)) := by
  cases logP <;> simp [parseResponseBody, hp]

/-- Witness for the C3 theorem at a non-JSON 200 response with auditing on. -/
theorem non_json_body_synthesis_witness :
    parseResponseBody true ⟨200, "oops", none⟩ =
      (if true then
         .ok (.obj [("error", .str "Non-JSON response from Splunk"),
                    ("raw", .str "oops")])
       else .error (.jsonDecodeError "oops")) :=
  non_json_body_synthesis true ⟨200, "oops", none⟩ rfl

/-- C4 counterexample: with payload auditing disabled, a 400 response whose
body is not valid JSON makes `_send_request` raise the json decode failure,
which carries neither the status nor a transport classification; the status
check is never reached. -/
theorem failure_status_with_non_json_body_gives_decode :
    sendRequestCore false ⟨400, "oops", none⟩ = .error (.jsonDecodeError "oops") := by
  rfl

/-- C4 amended: for every failure-status (4xx/5xx) response, `_send_request`
raises the transport failure carrying the status and the body whenever the
body parses as JSON or payload auditing is enabled, the parse attempt having
run first; with auditing disabled and a body that is not valid JSON, the
decode failure propagates before the status check instead. -/
theorem failure_status_raises_transport (logP : Bool) (resp : UpstreamResponse)
    (hs : 400 ≤ resp.status_code) :
    sendRequestCore logP resp =
      .error (if resp.parsed.isNone && !logP then .jsonDecodeError resp.text
              else .httpStatusError resp.status_code resp.text) := by
  cases logP <;> cases hp : resp.parsed <;>
    simp [sendRequestCore, parseResponseBody, raiseForStatus, hp, hs]

/-- Witness for the C4 theorem at a 404 response with a structured JSON error
body and auditing disabled. -/
theorem failure_status_raises_transport_witness :
    sendRequestCore false
      ⟨404, "not found body", some (.obj [("error", .str "no such method")])⟩ =
      .error (if (some (Json.obj [("error", .str "no such method")])).isNone && !false
              then .jsonDecodeError "not found body"
              else .httpStatusError 404 "not found body") :=
  failure_status_raises_transport false
    ⟨404, "not found body", some (.obj [("error", .str "no such method")])⟩
    (by decide)

/-- C5: the audit interceptor preserves every exchange: disabled it returns
the downstream result untouched with no buffering, and enabled the body the
downstream handler observes is byte-identical to the inbound body while the
status, headers and body bytes returned to the caller are exactly what the
handler produced, for every payload (JSON or not). -/
theorem audit_interceptor_preserves_exchange (call_next : Request → Response)
    (request : Request) :
    dispatch false call_next request = call_next request ∧
    (replayRequest request).body = request.body ∧
    (dispatch true call_next request).status_code
      = (call_next (replayRequest request)).status_code ∧
    (dispatch true call_next request).headers
      = (call_next (replayRequest request)).headers ∧
    (dispatch true call_next request).body_chunks.flatten
      = (call_next (replayRequest request)).body_chunks.flatten := by
  refine ⟨rfl, ?_, rfl, rfl, ?_⟩
  · simp [replayRequest, Request.body]
  · simp [dispatch]

/-- C6 counterexample: the tool-execution route is mounted under /api/tools,
so the path /tools/search does not match it while /api/tools/search does. -/
theorem tool_route_not_at_claimed_path :
    matchToolExecutionRoute "/tools/search" = none ∧
    matchToolExecutionRoute "/api/tools/search" = some "search" := by
  constructor <;> rfl

/-- C6 amended: posting a body with an arguments member to the tool-execution
route for N (served at /api/tools/N, not /tools/N) makes the client send the
JSON-RPC envelope with jsonrpc 2.0, method tools/call, id 2 and params
holding the tool name and the posted arguments; in particular the search
example holds at /api/tools/search. -/
theorem tool_execution_sends_tools_call (settings : Settings) (client : MCPClient)
    (tool_name : String) (A : Json) (resp : UpstreamResponse) :
    (Routers.execute_tool settings client tool_name (.obj [("arguments", A)]) resp).2.1 =
      jsonrpcPayload "tools/call" (.obj [("name", .str tool_name), ("arguments", A)]) 2 ∧
    (jsonrpcPayload "tools/call"
        (.obj [("name", .str tool_name), ("arguments", A)]) 2).get? "jsonrpc"
      = some (.str "2.0") ∧
    (jsonrpcPayload "tools/call"
        (.obj [("name", .str tool_name), ("arguments", A)]) 2).get? "method"
      = some (.str "tools/call") ∧
    (jsonrpcPayload "tools/call"
        (.obj [("name", .str tool_name), ("arguments", A)]) 2).get? "params"
      = some (.obj [("name", .str tool_name), ("arguments", A)]) ∧
    matchToolExecutionRoute "/api/tools/search" = some "search" := by
  refine ⟨?_, rfl, rfl, rfl, rfl⟩
  unfold Routers.execute_tool MCPClient.call_tool MCPClient.send_request
    toolExecutionRequestArguments
  cases h : sendRequestCore settings.bridge_log_payloads resp <;> simp [h, Json.get?]

/-- C7: the health endpoint never propagates a failure: for every outcome of
its live tools/list call it returns either the healthy payload or, on any
failure, the degraded payload that includes the upstream error as a string. -/
theorem health_endpoint_never_raises (settings : Settings) (client : MCPClient)
    (resp : UpstreamResponse) :
    health_check settings client resp =
      { status := "healthy", mcp_connection := "connected", error := none } ∨
    ∃ e, sendRequestCore settings.bridge_log_payloads resp = .error e ∧
      health_check settings client resp =
        { status := "degraded", mcp_connection := "disconnected"
          error := some (failureMessage e) } := by
  cases h : sendRequestCore settings.bridge_log_payloads resp with
  | ok v =>
      left
      simp [health_check, MCPClient.list_tools, MCPClient.send_request, h, Except.map]
  | error e =>
      right
      refine ⟨e, rfl, ?_⟩
      simp [health_check, MCPClient.list_tools, MCPClient.send_request, h, Except.map]

/-- C8 counterexample: with payload auditing enabled and an API key
configured, a request carrying a wrong key is rejected with a 403 and no
upstream call, but its body has already been buffered by the audit
interceptor, which runs outside routing and therefore before the auth
dependency. -/
theorem rejected_request_body_is_buffered :
    appPipeline
      { bridge_host := "0.0.0.0", bridge_port := 8000
        splunk_mcp_server_url := "http://localhost:3001/mcp"
        splunk_mcp_auth_token := "", splunk_mcp_server_timeout := 30
        splunk_mcp_server_verify_ssl := true, bridge_api_key := some "secret"
        log_level := "INFO", bridge_log_payloads := true, cors_origins := "*" }
      (fun _ => (⟨200, [], []⟩, [.upstreamCall]))
      { method := "POST", path := "/api/tools/search"
        headers := [("X-API-Key", "wrong")], stream := [[65, 66]] }
      = (⟨403, [], [[]]⟩, [.bufferRequestBody]) := by
  rfl

/-- C8 amended: a request the auth gate rejects yields a forbidden (403)
response and never reaches an endpoint handler, so no upstream call is made;
however its body is buffered by the audit interceptor exactly when payload
auditing is enabled, since the interceptor wraps the whole app and runs
before the route-level auth dependency. -/
theorem rejection_blocks_upstream (settings : Settings)
    (endpoint : Request → Response × List Event) (request : Request)
    (e : HTTPException)
    (hrej : get_api_key settings.bridge_api_key
              (headerLookup request.headers "X-API-Key") = .error e) :
    (appPipeline settings endpoint request).1.status_code = 403 ∧
    (appPipeline settings endpoint request).2 =
      (if settings.bridge_log_payloads then [Event.bufferRequestBody] else []) := by
  have h403 : e.status_code = 403 := by
    unfold get_api_key at hrej
    split at hrej
    · exact absurd hrej (by simp)
    · split at hrej
      · exact absurd hrej (by simp)
      · cases hrej; rfl
  have hrej2 : get_api_key settings.bridge_api_key
      (headerLookup (replayRequest request).headers "X-API-Key") = .error e := by
    simpa [replayRequest] using hrej
  cases hlog : settings.bridge_log_payloads <;>
    simp [appPipeline, routedApp, exceptionResponse, hlog, hrej, hrej2, h403]

/-- Witness for the C8 theorem at a concrete rejected request with auditing
enabled. -/
theorem rejection_blocks_upstream_witness :
    (appPipeline
      { bridge_host := "0.0.0.0", bridge_port := 8000
        splunk_mcp_server_url := "http://localhost:3001/mcp"
        splunk_mcp_auth_token := "", splunk_mcp_server_timeout := 30
        splunk_mcp_server_verify_ssl := true, bridge_api_key := some "secret"
        log_level := "INFO", bridge_log_payloads := true, cors_origins := "*" }
      (fun _ => (⟨200, [], []⟩, [.upstreamCall]))
      { method := "POST", path := "/api/tools/search"
        headers := [], stream := [[65]] }).1.status_code = 403 ∧
    (appPipeline
      { bridge_host := "0.0.0.0", bridge_port := 8000
        splunk_mcp_server_url := "http://localhost:3001/mcp"
        splunk_mcp_auth_token := "", splunk_mcp_server_timeout := 30
        splunk_mcp_server_verify_ssl := true, bridge_api_key := some "secret"
        log_level := "INFO", bridge_log_payloads := true, cors_origins := "*" }
      (fun _ => (⟨200, [], []⟩, [.upstreamCall]))
      { method := "POST", path := "/api/tools/search"
        headers := [], stream := [[65]] }).2 =
      (if true then [Event.bufferRequestBody] else []) :=
  rejection_blocks_upstream
    { bridge_host := "0.0.0.0", bridge_port := 8000
      splunk_mcp_server_url := "http://localhost:3001/mcp"
      splunk_mcp_auth_token := "", splunk_mcp_server_timeout := 30
      splunk_mcp_server_verify_ssl := true, bridge_api_key := some "secret"
      log_level := "INFO", bridge_log_payloads := true, cors_origins := "*" }
    (fun _ => (⟨200, [], []⟩, [.upstreamCall]))
    { method := "POST", path := "/api/tools/search"
      headers := [], stream := [[65]] }
    ⟨403, "Could not validate credentials"⟩
    rfl

/-- C9: every call through the client self-heals the connection: after
`_send_request` a connection context exists, the outcome does not depend on
whether a context existed beforehand, and calling right after a disconnect
gives the same outcome as calling on a connected client. -/
theorem call_self_heals_connection (settings : Settings) (client : MCPClient)
    (method : String) (params : Json) (request_id : Int)
    (resp : UpstreamResponse) :
    (MCPClient.send_request settings client method params request_id resp).1.http_client.isSome
      = true ∧
    (MCPClient.send_request settings client method params request_id resp).2.2 =
      sendRequestCore settings.bridge_log_payloads resp ∧
    (MCPClient.send_request settings (client.disconnect) method params request_id resp).2.2 =
      (MCPClient.send_request settings client method params request_id resp).2.2 := by
  refine ⟨?_, rfl, rfl⟩
  cases hc : client.http_client <;>
    simp [MCPClient.send_request, MCPClient.connect, hc]

/-- C10: sparse upstream successes are defaulted, never failed: the
tool-execution response defaults content to an empty list and isError to
false when absent, the resource-read response defaults contents to an empty
list, and `_send_request` returns an empty object when the envelope has no
result member. -/
theorem sparse_success_defaults (settings : Settings) (client : MCPClient)
    (tool_name uri : String) (body : Json) (resp resp2 : UpstreamResponse)
    (result j : Json)
    (hcall : sendRequestCore settings.bridge_log_payloads resp = .ok result)
    (h1 : result.get? "content" = none) (h2 : result.get? "isError" = none)
    (h3 : result.get? "contents" = none)
    (hp : resp2.parsed = some j) (hne : j.get? "error" = none)
    (hnr : j.get? "result" = none) (hst : resp2.status_code < 400) :
    (Routers.execute_tool settings client tool_name body resp).2.2 =
      .ok { content := .arr [], isError := .bool false } ∧
    (Routers.read_resource settings client uri resp).2.2 =
      .ok { contents := .arr [] } ∧
    sendRequestCore settings.bridge_log_payloads resp2 = .ok (.obj []) := by
  refine ⟨?_, ?_, ?_⟩
  · simp [Routers.execute_tool, MCPClient.call_tool, MCPClient.send_request,
      hcall, h1, h2]
  · simp [Routers.read_resource, MCPClient.read_resource, MCPClient.send_request,
      hcall, h3]
  · have hs : ¬ 400 ≤ resp2.status_code := by omega
    cases hlog : settings.bridge_log_payloads <;>
      simp [sendRequestCore, parseResponseBody, raiseForStatus, hp, hne, hnr, hs]

/-- Witness for the C10 theorem at a 200 response whose envelope is an empty
object. -/
theorem sparse_success_defaults_witness :
    (Routers.execute_tool
      { bridge_host := "0.0.0.0", bridge_port := 8000
        splunk_mcp_server_url := "http://localhost:3001/mcp"
        splunk_mcp_auth_token := "", splunk_mcp_server_timeout := 30
        splunk_mcp_server_verify_ssl := true, bridge_api_key := none
        log_level := "INFO", bridge_log_payloads := false, cors_origins := "*" }
      (MCPClient.init
        { bridge_host := "0.0.0.0", bridge_port := 8000
          splunk_mcp_server_url := "http://localhost:3001/mcp"
          splunk_mcp_auth_token := "", splunk_mcp_server_timeout := 30
          splunk_mcp_server_verify_ssl := true, bridge_api_key := none
          log_level := "INFO", bridge_log_payloads := false, cors_origins := "*" })
      "search" (.obj []) ⟨200, "{}", some (.obj [])⟩).2.2 =
      .ok { content := .arr [], isError := .bool false } ∧
    (Routers.read_resource
      { bridge_host := "0.0.0.0", bridge_port := 8000
        splunk_mcp_server_url := "http://localhost:3001/mcp"
        splunk_mcp_auth_token := "", splunk_mcp_server_timeout := 30
        splunk_mcp_server_verify_ssl := true, bridge_api_key := none
        log_level := "INFO", bridge_log_payloads := false, cors_origins := "*" }
      (MCPClient.init
        { bridge_host := "0.0.0.0", bridge_port := 8000
          splunk_mcp_server_url := "http://localhost:3001/mcp"
          splunk_mcp_auth_token := "", splunk_mcp_server_timeout := 30
          splunk_mcp_server_verify_ssl := true, bridge_api_key := none
          log_level := "INFO", bridge_log_payloads := false, cors_origins := "*" })
      "splunk-uri" ⟨200, "{}", some (.obj [])⟩).2.2 =
      .ok { contents := .arr [] } ∧
    sendRequestCore false ⟨200, "{}", some (.obj [])⟩ = .ok (.obj []) :=
  sparse_success_defaults
    { bridge_host := "0.0.0.0", bridge_port := 8000
      splunk_mcp_server_url := "http://localhost:3001/mcp"
      splunk_mcp_auth_token := "", splunk_mcp_server_timeout := 30
      splunk_mcp_server_verify_ssl := true, bridge_api_key := none
      log_level := "INFO", bridge_log_payloads := false, cors_origins := "*" }
    (MCPClient.init
      { bridge_host := "0.0.0.0", bridge_port := 8000
        splunk_mcp_server_url := "http://localhost:3001/mcp"
        splunk_mcp_auth_token := "", splunk_mcp_server_timeout := 30
        splunk_mcp_server_verify_ssl := true, bridge_api_key := none
        log_level := "INFO", bridge_log_payloads := false, cors_origins := "*" })
    "search" "splunk-uri" (.obj []) ⟨200, "{}", some (.obj [])⟩
    ⟨200, "{}", some (.obj [])⟩ (.obj []) (.obj [])
    rfl rfl rfl rfl rfl rfl rfl (by decide)

end Bridge
